import Mathlib

/-!
Shallow embedding of the picker tool (src/picker_tool) for checking the
specification's claims.  Python floats are modelled as rationals, Qt integer
rectangles as integer width/height pairs, Python lists as Lean lists, and
Python sets as finsets.  Fallible operations return `Option` or `Except`,
with the error value standing for the Python exception that propagates.
-/

/-- Constant `PickerToolEnums.MINIMUM_SIZE` (picker_enums.py). -/
def MINIMUM_SIZE : ℚ := 25

/-- Constant `PickerToolEnums.SHAPES` (picker_enums.py). -/
def SHAPES : List String := ["Rounded Rect", "Rect", "Custom"]

/-- The state of a `GraphicsButton` (picker_gui_utils.py) that the claims
touch: brush RGB components, label text, scene position and z value,
`set_rect` width/height (always constructed from integer `QRect`s),
selected-object names, current shape kind, raw normalized coordinates
`curr_coords`, and the displayed polygon `set_polygon`. -/
structure Shape where
  brush_r : ℕ
  brush_g : ℕ
  brush_b : ℕ
  text : String
  pos_x : ℚ
  pos_y : ℚ
  z_val : ℚ
  rect_w : ℤ
  rect_h : ℤ
  sel_objs : List String
  curr_shape : String
  curr_coords : List (ℚ × ℚ)
  set_polygon : List (ℚ × ℚ)
deriving Repr, DecidableEq

/-- Embeds `PickerWindow.get_center` (picker_gui.py 1970-1990): top-left scene
position plus half the bounding rectangle's width and height. -/
def get_center (s : Shape) : ℚ × ℚ :=
  (s.pos_x + (s.rect_w : ℚ) / 2, s.pos_y + (s.rect_h : ℚ) / 2)

/-- Embeds `PickerWindow.convert_from_center` (picker_gui.py 1993-2018): subtract
half the item's bounding rectangle from the given center. -/
def convert_from_center (c : ℚ × ℚ) (s : Shape) : ℚ × ℚ :=
  (c.1 - (s.rect_w : ℚ) / 2, c.2 - (s.rect_h : ℚ) / 2)

/-- Models `QPolygonF(rect)` for a rectangle at the origin: the closed polygon of
its four corners (used by `update_polygon` for non-Custom shapes). -/
def rect_polygon (w h : ℤ) : List (ℚ × ℚ) :=
  [(0, 0), ((w : ℚ), 0), ((w : ℚ), (h : ℚ)), (0, (h : ℚ)), (0, 0)]

/-- The point-scaling loop of `GraphicsButton.update_polygon`
(picker_gui_utils.py 896-905): each coordinate is scaled by the current
width and height divided by the minimum size, independently per axis. -/
def scale_coords (w h : ℤ) (coords : List (ℚ × ℚ)) : List (ℚ × ℚ) :=
  coords.map (fun c => (c.1 * ((w : ℚ) / MINIMUM_SIZE), c.2 * ((h : ℚ) / MINIMUM_SIZE)))

/-- Embeds `GraphicsButton.update_polygon` (picker_gui_utils.py 866-911).
`arg = none` models a call with no argument; a passed empty list is falsy in
Python and treated like no argument.  Non-Custom shapes get the rectangle
polygon; Custom shapes rescale the coordinate list (the argument, or
`curr_coords` when none was given) and store it back into `curr_coords`.
When both the argument and `curr_coords` are empty the method returns
without changing anything. -/
def update_polygon (s : Shape) (arg : Option (List (ℚ × ℚ))) : Shape :=
  if s.curr_shape ≠ SHAPES.getD 2 "" then
    { s with set_polygon := rect_polygon s.rect_w s.rect_h }
  else
    let cs := match arg with
      | none => s.curr_coords
      | some l => if l = [] then s.curr_coords else l
    if cs = [] then s
    else { s with curr_coords := cs, set_polygon := scale_coords s.rect_w s.rect_h cs }

/-- Embeds `GraphicsButton.update_bounding_rect` (picker_gui_utils.py 926-938):
store the new rectangle, then `update_polygon()` with no argument. -/
def update_bounding_rect (s : Shape) (w h : ℤ) : Shape :=
  update_polygon { s with rect_w := w, rect_h := h } none

/-- The polygon-coordinate mirroring loops of `PickerWindow.mirror_sel_btns`
(picker_gui.py 1605-1617): each selected axis coordinate is replaced by
`MINIMUM_SIZE` minus its value. -/
def mirror_coords (mx my : Bool) (coords : List (ℚ × ℚ)) : List (ℚ × ℚ) :=
  coords.map (fun c =>
    (if mx then MINIMUM_SIZE - c.1 else c.1,
     if my then MINIMUM_SIZE - c.2 else c.2))

/-- The per-item body of `PickerWindow.mirror_sel_btns` (picker_gui.py
1570-1642) for mirror settings World (`MIRROR_ONS[0]`) and Use Existing
(`MIRROR_TYPES[1]`): negate the selected axes of the item's center, convert
back to a top-left position, mirror the coordinate list, then
`setPos`, `update_bounding_rect` with the (deep-copied, identical) rectangle
and `update_polygon` with the mirrored coordinates. -/
def mirror_sel_btn_world_existing (mx my : Bool) (s : Shape) : Shape :=
  let c := get_center s
  let x_center_new := if mx then -c.1 else c.1
  let y_center_new := if my then -c.2 else c.2
  let new_shape_coord := convert_from_center (x_center_new, y_center_new) s
  let new_coords := mirror_coords mx my s.curr_coords
  let s1 := { s with pos_x := new_shape_coord.1, pos_y := new_shape_coord.2 }
  let s2 := update_bounding_rect s1 s.rect_w s.rect_h
  update_polygon s2 (some new_coords)

/-- The no-reference branch of `PickerWindow.align_by_x` (picker_gui.py
1460-1475): sum the selected items' center x coordinates, divide by the
item count, and move every item so its center x is that average. -/
def align_by_x_noref (items : List Shape) : List Shape :=
  let x_total := (items.map (fun it => (get_center it).1)).sum
  let x_average := x_total / (items.length : ℚ)
  items.map (fun it => { it with pos_x := (convert_from_center (x_average, 0) it).1 })

/-- Embeds `PickerWindow.align_by_x` (picker_gui.py 1439-1475) as invoked: with a
reference item every selected item's center x becomes the reference's;
without one the average is computed, which divides by `len(sel_items)` and
raises `ZeroDivisionError` when the selection is empty (there is no
empty-selection guard in this function). -/
def align_by_x_run (ref : Option Shape) (items : List Shape) :
    Except String (List Shape) :=
  match ref with
  | some r =>
    Except.ok (items.map
      (fun it => { it with pos_x := (convert_from_center ((get_center r).1, 0) it).1 }))
  | none =>
    if items.length = 0 then Except.error "ZeroDivisionError"
    else Except.ok (align_by_x_noref items)

/-- Keyboard modifier state relevant to `GraphicsView.mousePressEvent`
(picker_gui_utils.py 347-378): whether Shift and Ctrl are held.  A Qt
modifier-mask equality test such as `event.modifiers() == ShiftModifier`
holds exactly when the mask is precisely that combination. -/
structure Modifiers where
  shift : Bool
  ctrl : Bool
deriving Repr, DecidableEq

/-- Mouse buttons distinguished by `GraphicsView.mousePressEvent`. -/
inductive MouseBtn
  | left
  | middle
  | right
deriving Repr, DecidableEq

/-- The selection-mode assignment of `GraphicsView.mousePressEvent`
(picker_gui_utils.py 347-378) together with the handlers it dispatches to
(`ctrl_shift_left_click` sets "add", `shift_left_click` sets "toggle",
`ctrl_click` sets "subtract", `leftMouseButtonPress` sets "replace";
picker_gui_utils.py 449-502).  Non-left buttons leave the mode unchanged. -/
def mouse_press_mode (btn : MouseBtn) (mods : Modifiers) (old_mode : String) :
    String :=
  match btn with
  | MouseBtn.left =>
    if mods = ⟨true, true⟩ then "add"
    else if mods = ⟨true, false⟩ then "toggle"
    else if mods = ⟨false, true⟩ then "subtract"
    else "replace"
  | _ => old_mode

/-- Embeds `GraphicsView.evaluate_temp_items` (picker_gui_utils.py 580-618), with
the persisted `old_sel_items` list and the struck `changed_items` list viewed
as finite sets (the code converts through Python `set`s, so order and
multiplicity are irrelevant).  `drag` is the view's drag flag consulted by
the "replace" branch. -/
def evaluate_temp_items (mode : String) (drag : Bool)
    (old_sel_items changed_items : Finset ℕ) : Finset ℕ :=
  if mode = "replace" then
    (if drag then old_sel_items else ∅) ∪ changed_items
  else if mode = "toggle" then
    let add_items := changed_items.filter (fun i => i ∉ old_sel_items)
    let subtract_items := changed_items.filter (fun i => i ∈ old_sel_items)
    (old_sel_items ∪ add_items) \ subtract_items
  else if mode = "subtract" then
    old_sel_items \ changed_items
  else if mode = "add" then
    old_sel_items ∪ changed_items
  else old_sel_items

/-- Rounding of a value to `d` decimal places, as performed by writing a
Python float with `"%.2f"` or `format(x, ".3f")` and reading it back with
`float(...)`. -/
def round_dp (d : ℕ) (q : ℚ) : ℚ :=
  ((⌊q * 10 ^ d + 1 / 2⌋ : ℤ) : ℚ) / 10 ^ d

/-- One shape element of the XML file written by `PickerWindow.save_xml_file`
(picker_gui.py 279-355): RGB written with `"%i"` (exact integers), the label
text, the position and z written with `"%.2f"` (two decimals), the bounding
width/height written with `"%d"` (integers), the comma-joined selected-object
string, the shape-kind string, and the points written with `".3f"`. -/
structure XmlShape where
  attr_r : ℕ
  attr_g : ℕ
  attr_b : ℕ
  attr_text : String
  attr_x : ℚ
  attr_y : ℚ
  attr_z : ℚ
  attr_width : ℤ
  attr_height : ℤ
  attr_sel_objs : String
  attr_shape_kind : String
  attr_points : List (ℚ × ℚ)
deriving Repr, DecidableEq

/-- The per-shape serialization of `PickerWindow.save_xml_file`
(picker_gui.py 279-355). -/
def save_shape (s : Shape) : XmlShape where
  attr_r := s.brush_r
  attr_g := s.brush_g
  attr_b := s.brush_b
  attr_text := s.text
  attr_x := round_dp 2 s.pos_x
  attr_y := round_dp 2 s.pos_y
  attr_z := round_dp 2 s.z_val
  attr_width := s.rect_w
  attr_height := s.rect_h
  attr_sel_objs := String.intercalate ", " s.sel_objs
  attr_shape_kind := s.curr_shape
  attr_points := s.curr_coords.map (fun c => (round_dp 3 c.1, round_dp 3 c.2))

/-- Embeds `GraphicsButton.__init__` (picker_gui_utils.py 760-819) with every kwarg
supplied, as `load_xml_file` does: position and z are the defaults until
`setPos`/`setZValue`, and `set_polygon` defaults to the polygon built from
the supplied `curr_coords`. -/
def graphics_button_init (sel_list : List String) (r g b : ℕ) (text : String)
    (w h : ℤ) (shape_kind : String) (coords : List (ℚ × ℚ)) : Shape where
  brush_r := r
  brush_g := g
  brush_b := b
  text := text
  pos_x := 0
  pos_y := 0
  z_val := 0
  rect_w := w
  rect_h := h
  sel_objs := sel_list
  curr_shape := shape_kind
  curr_coords := coords
  set_polygon := coords

/-- The per-shape branch of `PickerWindow.load_xml_file` (picker_gui.py
413-488): split the selected-object string on ", " and drop empty entries,
construct the `GraphicsButton` from the parsed kwargs, call
`update_polygon()`, then `setPos` and `setZValue` from the stored values. -/
def load_shape (x : XmlShape) : Shape :=
  let shape_sel_objs := (x.attr_sel_objs.splitOn ", ").filter (fun t => t ≠ "")
  let s0 := graphics_button_init shape_sel_objs x.attr_r x.attr_g x.attr_b
      x.attr_text x.attr_width x.attr_height x.attr_shape_kind x.attr_points
  let s1 := update_polygon s0 none
  { s1 with pos_x := x.attr_x, pos_y := x.attr_y, z_val := x.attr_z }

/-- One image element of the XML file: the stored file path attribute and the
stored position/z (picker_gui.py 250-276 on save, 495-511 on load). -/
structure ImgEntry where
  filepath : String
  img_x : ℚ
  img_y : ℚ
  img_z : ℚ
deriving Repr, DecidableEq

/-- The state of a `GraphicsPixmap` (picker_gui_utils.py 710-737) the claims
touch: the file path it was built from, its `good_img` flag, and its scene
position and z value. -/
structure PixmapItem where
  file_path : String
  good_img : Bool
  pix_x : ℚ
  pix_y : ℚ
  pix_z : ℚ
deriving Repr, DecidableEq

/-- Models `os.path.join(WORKING_DIR, CONFIG_FOLDER, LOST_IMAGE)` (picker_gui.py
516-518 with the constants of picker_enums.py). -/
def lost_image_path (working_dir : String) : String :=
  working_dir ++ "/" ++ "config" ++ "/" ++ "lost_image.png"

/-- The per-image branch of `PickerWindow.load_xml_file` (picker_gui.py
495-526).  `fs` is the set of file paths that exist on disk.  When the
stored path does not exist, the bundled placeholder is substituted and
`good_img` is set to `False`; either way the stored position and z value
are applied to the new pixmap item. -/
def load_image (fs : List String) (working_dir : String) (e : ImgEntry) :
    PixmapItem :=
  if e.filepath ∈ fs then
    { file_path := e.filepath, good_img := true,
      pix_x := e.img_x, pix_y := e.img_y, pix_z := e.img_z }
  else
    { file_path := lost_image_path working_dir, good_img := false,
      pix_x := e.img_x, pix_y := e.img_y, pix_z := e.img_z }

/-- The image loop of `PickerWindow.load_xml_file` (picker_gui.py 493-526):
every entry of the category is processed in order, none aborts the loop. -/
def load_images (fs : List String) (working_dir : String)
    (entries : List ImgEntry) : List PixmapItem :=
  entries.map (load_image fs working_dir)

/-- Possible outcomes of the file-handling prologue of
`PickerWindow.load_xml_file` (picker_gui.py 376-389). -/
inductive LoadOutcome
  | no_file
  | raised (missing_msg_printed : Bool)
  | loaded
deriving Repr, DecidableEq

/-- The file-handling prologue of `PickerWindow.load_xml_file` (picker_gui.py
376-389): a cancelled dialog (`filename = none`) returns `None`; otherwise a
console message is printed when the path does not exist, but the code falls
through to `et.parse(filename)`, which raises on a missing file
(`raised true` records that the message was printed before the raise). -/
def load_xml_file (fs : List String) (filename : Option String) : LoadOutcome :=
  match filename with
  | none => LoadOutcome.no_file
  | some f =>
    let missing_msg_printed := decide (f ∉ fs)
    if f ∈ fs then LoadOutcome.loaded
    else LoadOutcome.raised missing_msg_printed

/-- The min/max scan of `PickerWindow.get_shape_from_scene` (picker_gui.py
1110-1132) over one coordinate axis, given the first sampled value and the
remaining ones. -/
def minmax_scan (first : ℚ) (rest : List ℚ) : ℚ × ℚ :=
  rest.foldl
    (fun mm x => if x < mm.1 then (x, mm.2) else (mm.1, if x > mm.2 then x else mm.2))
    (first, first)

/-- The normalization tail of `PickerWindow.get_shape_from_scene`
(picker_gui.py 1110-1152), starting from the sampled `creation_points`:
compute the per-axis min/max, take the longer dimension as the square
length, divide `MINIMUM_SIZE` by it — with no guard, so a zero-extent
sample raises `ZeroDivisionError`, modelled as `none` — and rescale the
de-meaned points. -/
def get_shape_normalize (pts : List (ℚ × ℚ)) : Option (List (ℚ × ℚ)) :=
  match pts with
  | [] => none
  | p :: rest =>
    let xs := minmax_scan p.1 (rest.map Prod.fst)
    let ys := minmax_scan p.2 (rest.map Prod.snd)
    let x_length := xs.2 - xs.1
    let y_length := ys.2 - ys.1
    let square_length := if x_length > y_length then x_length else y_length
    if square_length = 0 then none
    else
      let scale_factor := MINIMUM_SIZE / square_length
      some (pts.map (fun q => ((q.1 - xs.1) * scale_factor, (q.2 - ys.1) * scale_factor)))

/-- A concrete Custom-kind shape used by the witness theorems. -/
def sample_custom : Shape :=
  ⟨10, 20, 30, "hip", 3 / 2, -7 / 4, 1 / 2, 25, 50, ["a", "b"], "Custom",
    [(0, 0), (25, 0), (12, 25)], [(0, 0), (25, 0), (12, 50)]⟩

/-- A concrete Rect-kind shape used by the witness theorems. -/
def sample_rect : Shape :=
  ⟨1, 2, 3, "x", 0, 0, 0, 25, 25, [], "Rect",
    [(0, 0), (25, 0), (25, 25), (0, 25)], []⟩

theorem update_polygon_pos_x (s : Shape) (arg : Option (List (ℚ × ℚ))) :
    (update_polygon s arg).pos_x = s.pos_x := by
  unfold update_polygon
  split
  · rfl
  · dsimp only
    split <;> rfl

theorem update_polygon_pos_y (s : Shape) (arg : Option (List (ℚ × ℚ))) :
    (update_polygon s arg).pos_y = s.pos_y := by
  unfold update_polygon
  split
  · rfl
  · dsimp only
    split <;> rfl

theorem update_polygon_rect_w (s : Shape) (arg : Option (List (ℚ × ℚ))) :
    (update_polygon s arg).rect_w = s.rect_w := by
  unfold update_polygon
  split
  · rfl
  · dsimp only
    split <;> rfl

theorem update_polygon_rect_h (s : Shape) (arg : Option (List (ℚ × ℚ))) :
    (update_polygon s arg).rect_h = s.rect_h := by
  unfold update_polygon
  split
  · rfl
  · dsimp only
    split <;> rfl

theorem update_polygon_brush_r (s : Shape) (arg : Option (List (ℚ × ℚ))) :
    (update_polygon s arg).brush_r = s.brush_r := by
  unfold update_polygon
  split
  · rfl
  · dsimp only
    split <;> rfl

theorem update_polygon_brush_g (s : Shape) (arg : Option (List (ℚ × ℚ))) :
    (update_polygon s arg).brush_g = s.brush_g := by
  unfold update_polygon
  split
  · rfl
  · dsimp only
    split <;> rfl

theorem update_polygon_brush_b (s : Shape) (arg : Option (List (ℚ × ℚ))) :
    (update_polygon s arg).brush_b = s.brush_b := by
  unfold update_polygon
  split
  · rfl
  · dsimp only
    split <;> rfl

theorem update_polygon_text (s : Shape) (arg : Option (List (ℚ × ℚ))) :
    (update_polygon s arg).text = s.text := by
  unfold update_polygon
  split
  · rfl
  · dsimp only
    split <;> rfl

theorem update_polygon_curr_shape (s : Shape) (arg : Option (List (ℚ × ℚ))) :
    (update_polygon s arg).curr_shape = s.curr_shape := by
  unfold update_polygon
  split
  · rfl
  · dsimp only
    split <;> rfl

theorem update_polygon_curr_coords_none (s : Shape) :
    (update_polygon s none).curr_coords = s.curr_coords := by
  unfold update_polygon
  split
  · rfl
  · dsimp only
    split <;> rfl

theorem mirror_world_existing_center (mx my : Bool) (s : Shape) :
    get_center (mirror_sel_btn_world_existing mx my s) =
      (if mx then -(get_center s).1 else (get_center s).1,
       if my then -(get_center s).2 else (get_center s).2) := by
  simp only [mirror_sel_btn_world_existing, update_bounding_rect, get_center,
    convert_from_center, update_polygon_pos_x, update_polygon_pos_y,
    update_polygon_rect_w, update_polygon_rect_h]
  simp [Prod.mk.injEq, sub_add_cancel_right]

/-- C2: mirroring a shape in Use Existing mode about the world origin on the
same single axis twice returns its center (top-left position plus half the
bounding-box size) to its original value. -/
theorem mirror_world_existing_center_involution (mx my : Bool) (s : Shape)
    (h : mx ≠ my) :
    get_center (mirror_sel_btn_world_existing mx my
      (mirror_sel_btn_world_existing mx my s)) = get_center s := by
  rw [mirror_world_existing_center, mirror_world_existing_center]
  cases mx <;> cases my <;> simp

/-- Witness for C2 at a concrete Custom shape mirrored on the x axis. -/
theorem mirror_world_existing_center_involution_witness :
    (true ≠ false) ∧
    get_center (mirror_sel_btn_world_existing true false
      (mirror_sel_btn_world_existing true false sample_custom)) =
      get_center sample_custom :=
  ⟨by decide,
   mirror_world_existing_center_involution true false sample_custom (by decide)⟩

/-- C3: with no reference shape, `align_by_x` gives every selected shape the
center x equal to the arithmetic mean of the original center x values. -/
theorem align_by_x_noref_mean (items : List Shape) (h : items ≠ []) :
    ∀ s2 ∈ align_by_x_noref items,
      (get_center s2).1 =
        (items.map (fun it => (get_center it).1)).sum / (items.length : ℚ) := by
  intro s2 hs2
  unfold align_by_x_noref at hs2
  simp only [List.mem_map] at hs2
  obtain ⟨it, _, rfl⟩ := hs2
  simp only [get_center, convert_from_center]
  ring

/-- Witness for C3 on a concrete two-shape selection. -/
theorem align_by_x_noref_mean_witness :
    ([sample_custom, sample_rect] ≠ ([] : List Shape)) ∧
    ∀ s2 ∈ align_by_x_noref [sample_custom, sample_rect],
      (get_center s2).1 =
        (([sample_custom, sample_rect].map (fun it => (get_center it).1)).sum /
          (([sample_custom, sample_rect] : List Shape).length : ℚ)) :=
  ⟨by decide, align_by_x_noref_mean [sample_custom, sample_rect] (by decide)⟩

/-- C4 counterexample: a shift-only left press sets mode "toggle", not the
"subtract" the claim states. -/
theorem shift_left_click_mode_not_subtract :
    mouse_press_mode MouseBtn.left ⟨true, false⟩ "replace" ≠ "subtract" := by
  decide

/-- C4 amended: a left press selects Replace with no modifier, Add with
ctrl+shift, Toggle with shift, and Subtract with ctrl. -/
theorem mouse_press_mode_table (old_mode : String) :
    mouse_press_mode MouseBtn.left ⟨false, false⟩ old_mode = "replace" ∧
    mouse_press_mode MouseBtn.left ⟨true, true⟩ old_mode = "add" ∧
    mouse_press_mode MouseBtn.left ⟨true, false⟩ old_mode = "toggle" ∧
    mouse_press_mode MouseBtn.left ⟨false, true⟩ old_mode = "subtract" := by
  refine ⟨?_, ?_, ?_, ?_⟩ <;> rfl

/-- C5: merging a struck item set in Toggle mode twice returns the selection,
viewed as a set, to its original state. -/
theorem evaluate_temp_items_toggle_involution (d1 d2 : Bool)
    (old_sel_items changed_items : Finset ℕ) :
    evaluate_temp_items "toggle" d1
      (evaluate_temp_items "toggle" d2 old_sel_items changed_items)
      changed_items = old_sel_items := by
  ext a
  by_cases ho : a ∈ old_sel_items <;> by_cases hc : a ∈ changed_items <;>
    simp [evaluate_temp_items, Finset.mem_sdiff, Finset.mem_union,
      Finset.mem_filter, ho, hc]

/-- C1: exporting a shape and importing the produced XML element reproduces
the bounding rectangle's width and height (written as integers), the brush
RGB components, the label text and the shape kind exactly, and the polygon
point list rounded to three decimal places. -/
theorem save_load_round_trip (s : Shape) :
    (load_shape (save_shape s)).rect_w = s.rect_w ∧
    (load_shape (save_shape s)).rect_h = s.rect_h ∧
    (load_shape (save_shape s)).brush_r = s.brush_r ∧
    (load_shape (save_shape s)).brush_g = s.brush_g ∧
    (load_shape (save_shape s)).brush_b = s.brush_b ∧
    (load_shape (save_shape s)).text = s.text ∧
    (load_shape (save_shape s)).curr_shape = s.curr_shape ∧
    (load_shape (save_shape s)).curr_coords =
      s.curr_coords.map (fun c => (round_dp 3 c.1, round_dp 3 c.2)) := by
  refine ⟨?_, ?_, ?_, ?_, ?_, ?_, ?_, ?_⟩ <;>
    simp [load_shape, save_shape, graphics_button_init, update_polygon_rect_w,
      update_polygon_rect_h, update_polygon_brush_r, update_polygon_brush_g,
      update_polygon_brush_b, update_polygon_text, update_polygon_curr_shape,
      update_polygon_curr_coords_none]

/-- C6: invoking `align_by_x` with no shapes selected (and no reference
shape) does not return silently: the average computation divides by the
selection size and raises `ZeroDivisionError`, contradicting the claim that
every selection-requiring operation silently returns without effect. -/
theorem align_by_x_empty_selection_raises :
    align_by_x_run none [] = Except.error "ZeroDivisionError" := by
  rfl

/-- C7: invoking the XML load on a path that does not exist prints the
missing-file message but does not abort: the code falls through to
`et.parse`, which raises, so an exception propagates to the host. -/
theorem load_xml_file_missing_raises :
    load_xml_file ["present.xml"] (some "missing.xml") =
      LoadOutcome.raised true := by
  rfl

/-- C8: an imported image entry whose stored path does not exist on disk is
replaced by the bundled placeholder image, marked as not a good image, keeps
its stored position and z value, and the image loop processes every other
entry of the category. -/
theorem load_image_missing_placeholder (fs : List String) (wd : String)
    (e : ImgEntry) (h : e.filepath ∉ fs) :
    load_image fs wd e =
      { file_path := lost_image_path wd, good_img := false,
        pix_x := e.img_x, pix_y := e.img_y, pix_z := e.img_z } ∧
    ∀ pre post, load_images fs wd (pre ++ e :: post) =
      load_images fs wd pre ++ load_image fs wd e :: load_images fs wd post := by
  constructor
  · simp [load_image, h]
  · intro pre post
    simp [load_images]

/-- Witness for C8 at a concrete entry whose path is absent. -/
theorem load_image_missing_placeholder_witness :
    (("imgs/a.png" : String) ∉ ["imgs/b.png"]) ∧
    (load_image ["imgs/b.png"] "wd" ⟨"imgs/a.png", 1, 2, 3⟩ =
      { file_path := lost_image_path "wd", good_img := false,
        pix_x := 1, pix_y := 2, pix_z := 3 } ∧
    ∀ pre post, load_images ["imgs/b.png"] "wd" (pre ++ ⟨"imgs/a.png", 1, 2, 3⟩ :: post) =
      load_images ["imgs/b.png"] "wd" pre ++
        load_image ["imgs/b.png"] "wd" ⟨"imgs/a.png", 1, 2, 3⟩ ::
          load_images ["imgs/b.png"] "wd" post) :=
  ⟨by decide,
   load_image_missing_placeholder ["imgs/b.png"] "wd" ⟨"imgs/a.png", 1, 2, 3⟩
     (by decide)⟩

/-- C9: resizing a Custom shape's bounding rectangle leaves `curr_coords`
unchanged and sets the displayed polygon to those coordinates scaled
independently by width and height divided by the minimum size 25 (the side
condition rules out states the tool never builds, where the raw coordinate
list is empty yet a polygon is displayed). -/
theorem update_bounding_rect_custom (s : Shape) (w h : ℤ)
    (hc : s.curr_shape = "Custom")
    (hne : s.curr_coords ≠ [] ∨ s.set_polygon = []) :
    (update_bounding_rect s w h).curr_coords = s.curr_coords ∧
    (update_bounding_rect s w h).set_polygon = scale_coords w h s.curr_coords := by
  rcases hne with hne | hpoly
  · simp [update_bounding_rect, update_polygon, SHAPES, hc, hne]
  · by_cases hcc : s.curr_coords = []
    · simp [update_bounding_rect, update_polygon, SHAPES, hc, hcc, hpoly,
        scale_coords]
    · simp [update_bounding_rect, update_polygon, SHAPES, hc, hcc]

/-- Witness for C9 at a concrete Custom shape resized to 50 by 100. -/
theorem update_bounding_rect_custom_witness :
    (sample_custom.curr_shape = "Custom") ∧
    (sample_custom.curr_coords ≠ [] ∨ sample_custom.set_polygon = []) ∧
    ((update_bounding_rect sample_custom 50 100).curr_coords =
        sample_custom.curr_coords ∧
     (update_bounding_rect sample_custom 50 100).set_polygon =
        scale_coords 50 100 sample_custom.curr_coords) :=
  ⟨by decide, Or.inl (by decide),
   update_bounding_rect_custom sample_custom 50 100 (by decide)
     (Or.inl (by decide))⟩

theorem minmax_scan_const (a : ℚ) :
    ∀ l : List ℚ, (∀ x ∈ l, x = a) → minmax_scan a l = (a, a) := by
  intro l
  induction l with
  | nil => intro _; rfl
  | cons x xs ih =>
    intro h
    have hx : x = a := h x (by simp)
    have hxs : ∀ y ∈ xs, y = a := fun y hy => h y (by simp [hy])
    have step : minmax_scan a (x :: xs) = minmax_scan a xs := by
      subst hx
      simp [minmax_scan, lt_irrefl]
    rw [step]
    exact ih hxs

/-- C10: when every sampled curve point has the same x and the same y
coordinate, both extents are zero, the unguarded division by the longer
dimension divides by zero, and `get_shape_from_scene` raises instead of
completing (modelled as `none`). -/
theorem get_shape_degenerate_raises (pts : List (ℚ × ℚ)) (p0 : ℚ × ℚ)
    (hne : pts ≠ []) (hall : ∀ q ∈ pts, q = p0) :
    get_shape_normalize pts = none := by
  match pts, hne with
  | p :: rest, _ =>
    have hp : p = p0 := hall p (by simp)
    subst hp
    have hx : ∀ x ∈ rest.map Prod.fst, x = p.1 := by
      intro x hxm
      simp only [List.mem_map] at hxm
      obtain ⟨q, hq, rfl⟩ := hxm
      rw [hall q (by simp [hq])]
    have hy : ∀ y ∈ rest.map Prod.snd, y = p.2 := by
      intro y hym
      simp only [List.mem_map] at hym
      obtain ⟨q, hq, rfl⟩ := hym
      rw [hall q (by simp [hq])]
    unfold get_shape_normalize
    dsimp only
    rw [minmax_scan_const p.1 (rest.map Prod.fst) hx,
        minmax_scan_const p.2 (rest.map Prod.snd) hy]
    simp

/-- Witness for C10 at a concrete constant sample. -/
theorem get_shape_degenerate_raises_witness :
    (([((1 : ℚ), (2 : ℚ)), (1, 2), (1, 2)] : List (ℚ × ℚ)) ≠ []) ∧
    (∀ q ∈ ([((1 : ℚ), (2 : ℚ)), (1, 2), (1, 2)] : List (ℚ × ℚ)),
      q = ((1 : ℚ), (2 : ℚ))) ∧
    get_shape_normalize [((1 : ℚ), (2 : ℚ)), (1, 2), (1, 2)] = none :=
  ⟨by decide, by decide,
   get_shape_degenerate_raises [((1 : ℚ), (2 : ℚ)), (1, 2), (1, 2)] ((1 : ℚ), (2 : ℚ))
     (by decide) (by decide)⟩
